import Mathlib

/-!
Verification of the gonexmo SMS library (webhook decoding, timestamp parsing,
IP allowlisting, outbound message validation) against its specification.

Conventions of the embedding:
* Go `time.Time` instants are modelled as `Int` seconds since
  0001-01-01T00:00:00 UTC in the proleptic Gregorian calendar; the Go zero
  `time.Time` is `0`.
* Go byte strings are modelled as Lean `String`s; Go `len` on a string is the
  UTF-8 byte length.
* Fallible operations return `Option` or `Except`.
* HTTP handler behaviour is modelled as a pure function from a request record
  (query string, content length, headers, and the outcomes of the opaque
  body-reading standard-library calls) to an `HttpOutcome` recording the
  response status, the response body, and the value sent on the out channel.
-/

namespace Gonexmo

/-- Seconds-since-0001-01-01T00:00:00-UTC representation of a Go `time.Time`
instant. -/
abbrev Instant := Int

/-- Leap-year predicate of the proleptic Gregorian calendar, as used by Go's
`time` package. -/
def isLeapYear (y : Int) : Bool :=
  y % 4 = 0 && (y % 100 ≠ 0 || y % 400 = 0)

/-- Number of days in a month (Go `time.daysIn`). -/
def daysInMonth (y : Int) (m : Nat) : Nat :=
  if m = 2 then (if isLeapYear y then 29 else 28)
  else if m = 4 || m = 6 || m = 9 || m = 11 then 30
  else 31

/-- Cumulative days before the given month in a non-leap year. -/
def daysBeforeMonth (m : Nat) : Nat :=
  match m with
  | 1 => 0 | 2 => 31 | 3 => 59 | 4 => 90 | 5 => 120 | 6 => 151
  | 7 => 181 | 8 => 212 | 9 => 243 | 10 => 273 | 11 => 304 | 12 => 334
  | _ => 0

/-- Days elapsed from 0001-01-01 to the given proleptic-Gregorian date. -/
def daysSinceYearOne (y : Int) (m d : Nat) : Int :=
  let py := y - 1
  365 * py + py.fdiv 4 - py.fdiv 100 + py.fdiv 400
    + (daysBeforeMonth m : Int)
    + (if 2 < m && isLeapYear y then 1 else 0)
    + (d : Int) - 1

/-- Instant denoted by a wall-clock date-time and a UTC offset in seconds
(Go `time.Date(y, mo, d, h, mi, s, 0, FixedZone(off))` as an instant). -/
def mkInstant (y : Int) (mo d h mi s : Nat) (off : Int) : Instant :=
  daysSinceYearOne y mo d * 86400 + ((h * 3600 + mi * 60 + s : Nat) : Int) - off

/-- Range validation performed by Go `time.Parse` on the parsed components. -/
def validDateTime (y : Int) (mo d h mi s : Nat) : Bool :=
  1 ≤ mo && mo ≤ 12 && 1 ≤ d && d ≤ daysInMonth y mo
    && h ≤ 23 && mi ≤ 59 && s ≤ 59

/-- Decimal digit value of a character, if it is a digit. -/
def digit? (c : Char) : Option Nat :=
  if c.isDigit then some (c.toNat - 48) else none

/-- Parse exactly two decimal digits (Go `getnum` with `fixed = true`). -/
def parse2 : List Char → Option (Nat × List Char)
  | c1 :: c2 :: rest => do
    let a ← digit? c1
    let b ← digit? c2
    pure (10 * a + b, rest)
  | _ => none

/-- Parse exactly four decimal digits (Go's `stdLongYear` layout chunk). -/
def parse4 : List Char → Option (Nat × List Char)
  | c1 :: c2 :: c3 :: c4 :: rest => do
    let a ← digit? c1
    let b ← digit? c2
    let c ← digit? c3
    let d ← digit? c4
    pure (1000 * a + 100 * b + 10 * c + d, rest)
  | _ => none

/-- Consume one expected literal character of a layout. -/
def parseLit (c : Char) : List Char → Option (List Char)
  | x :: rest => if x = c then some rest else none
  | [] => none

/-- Consume a list of expected literal characters of a layout. -/
def parseLits : List Char → List Char → Option (List Char)
  | [], rest => some rest
  | c :: cs, rest => do parseLits cs (← parseLit c rest)

/-- Parsed wall-clock components: year, month, day, hour, minute, second. -/
structure WallClock where
  year : Int
  month : Nat
  day : Nat
  hour : Nat
  minute : Nat
  second : Nat
deriving DecidableEq, Repr

/-- Parse the common `"2006-01-02 15:04:05"` prefix of the layouts used by the
library. -/
def parseDateTimeCore (cs : List Char) : Option (WallClock × List Char) := do
  let (y, r) ← parse4 cs
  let r ← parseLit '-' r
  let (mo, r) ← parse2 r
  let r ← parseLit '-' r
  let (d, r) ← parse2 r
  let r ← parseLit ' ' r
  let (h, r) ← parse2 r
  let r ← parseLit ':' r
  let (mi, r) ← parse2 r
  let r ← parseLit ':' r
  let (s, r) ← parse2 r
  pure (⟨(y : Int), mo, d, h, mi, s⟩, r)

/-- Parse a signed numeric zone offset (Go layout chunk `-0700`): a mandatory
sign followed by four digits, giving an offset in seconds. -/
def parseZoneOffset : List Char → Option (Int × List Char)
  | c :: rest =>
    if c = '+' || c = '-' then do
      let (zh, r) ← parse2 rest
      let (zm, r) ← parse2 r
      pure ((if c = '-' then (-1 : Int) else 1) * (zh * 3600 + zm * 60), r)
    else none
  | [] => none

/-- Finish a Go `time.Parse`: validate the component ranges and build the
instant from the wall clock and zone offset. -/
def finishParse (w : WallClock) (off : Int) : Option Instant :=
  if validDateTime w.year w.month w.day w.hour w.minute w.second then
    some (mkInstant w.year w.month w.day w.hour w.minute w.second off)
  else none

/-- Go `time.Parse("2006-01-02 15:04:05 -0700", s)`. -/
def goParseTZ (s : String) : Option Instant := do
  let (w, r) ← parseDateTimeCore s.data
  let r ← parseLit ' ' r
  let (off, r) ← parseZoneOffset r
  if r = [] then finishParse w off else none

/-- Go `time.Parse("2006-01-02 15:04:05 0000", s)`: the chunk `" 0000"` is not
a recognised layout element, so Go treats it as literal text and the parsed
time carries no zone (UTC). -/
def goParseZeroZone (s : String) : Option Instant := do
  let (w, r) ← parseDateTimeCore s.data
  let r ← parseLits [' ', '0', '0', '0', '0'] r
  if r = [] then finishParse w 0 else none

/-- Go `time.Parse("2006-01-02 15:04:05  0000", s)`: as `goParseZeroZone` but
with a duplicated separating space, another literal chunk. -/
def goParseZeroZoneDoubleSpace (s : String) : Option Instant := do
  let (w, r) ← parseDateTimeCore s.data
  let r ← parseLits [' ', ' ', '0', '0', '0', '0'] r
  if r = [] then finishParse w 0 else none

/-- Go `time.Parse("2006-01-02 15:04:05", s)`: no zone at all, interpreted as
UTC. -/
def goParseBare (s : String) : Option Instant := do
  let (w, r) ← parseDateTimeCore s.data
  if r = [] then finishParse w 0 else none

/-- Go `time.Parse("0601021504", s)`: the compact `yymmddHHMM` layout used for
the `scts` field. A two-digit year of 69 or more is 19yy, below 69 is 20yy. -/
def goParseCompact (s : String) : Option Instant := do
  let (yy, r) ← parse2 s.data
  let (mo, r) ← parse2 r
  let (d, r) ← parse2 r
  let (h, r) ← parse2 r
  let (mi, r) ← parse2 r
  let y : Int := if yy ≥ 69 then 1900 + yy else 2000 + yy
  if r = [] then finishParse ⟨y, mo, d, h, mi, 0⟩ 0 else none

/-- Modelled from the spec: the repository's `parseMessageTimestamp`, whose
definition is not among the provided sources (only its test,
`TestParseMessageTimestamp`, is). Per §4.1 of the spec: the empty string gives
the zero instant with no error; otherwise the fixed list of layouts is tried
in order — `"2006-01-02 15:04:05 -0700"`, then the literal-`0000` variant,
then the duplicated-space literal-`0000` variant, then the bare zoneless
layout — and the first successful match is returned; when none matches the
parse fails with a `TimestampFormatError` carrying the offending string. -/
def parseMessageTimestamp (s : String) : Except String Instant :=
  if s = "" then .ok 0
  else
    match [goParseTZ s, goParseZeroZone s, goParseZeroZoneDoubleSpace s,
           goParseBare s].findSome? id with
    | some t => .ok t
    | none => .error s

/-- Hexadecimal digit value of a character, if it is one. -/
def hexDigit? (c : Char) : Option Nat :=
  if '0' ≤ c && c ≤ '9' then some (c.toNat - 48)
  else if 'a' ≤ c && c ≤ 'f' then some (c.toNat - 97 + 10)
  else if 'A' ≤ c && c ≤ 'F' then some (c.toNat - 65 + 10)
  else none

/-- Character-level model of Go `net/url.QueryUnescape`: `%HH` becomes the
character with code `HH`, `+` becomes a space, and a `%` not followed by two
hexadecimal digits is an invalid URL escape. -/
def queryUnescapeCore : List Char → Except String (List Char)
  | [] => .ok []
  | '%' :: a :: b :: rest =>
    match hexDigit? a, hexDigit? b with
    | some x, some y => do pure (Char.ofNat (16 * x + y) :: (← queryUnescapeCore rest))
    | _, _ => .error "invalid URL escape"
  | '%' :: _ :: [] => .error "invalid URL escape"
  | '%' :: [] => .error "invalid URL escape"
  | '+' :: rest => do pure (' ' :: (← queryUnescapeCore rest))
  | c :: rest => do pure (c :: (← queryUnescapeCore rest))

/-- Go `net/url.QueryUnescape` on a string. -/
def queryUnescape (s : String) : Except String String :=
  (queryUnescapeCore s.data).map (fun cs => ⟨cs⟩)

/-- Go `strconv.Atoi`: an optional sign followed by at least one decimal
digit, nothing else, with the value required to fit in a 64-bit `int`. -/
def goAtoi (s : String) : Option Int :=
  match s.data with
  | [] => none
  | c :: cs =>
    let (neg, ds) :=
      if c = '-' then (true, cs)
      else if c = '+' then (false, cs)
      else (false, c :: cs)
    if ds = [] || !ds.all (·.isDigit) then none
    else
      let n : Nat := ds.foldl (fun a d => 10 * a + (d.toNat - 48)) 0
      let v : Int := if neg then -(n : Int) else (n : Int)
      if -(2 ^ 63) ≤ v && v ≤ 2 ^ 63 - 1 then some v else none

/-- Parsed form data (`url.Values` after `req.ParseForm`), as an association
list from field name to value. -/
abbrev Form := List (String × String)

/-- Go `req.FormValue(key)`: the first value for the key, or the empty string
when the key is absent. -/
def formValue (f : Form) (key : String) : String :=
  match f.find? (fun p => p.1 == key) with
  | some p => p.2
  | none => ""

/-- An IP address as a list of byte values: 4 bytes for IPv4, 16 for IPv6
(Go `net.IP`). -/
abbrev IPBytes := List Nat

/-- Parse one dotted-decimal IPv4 field: a run of decimal digits, non-empty,
value at most 255, with no leading zero (Go's IPv4 field parsing). -/
def parseIPv4Field (cs : List Char) : Option (Nat × List Char) :=
  let ds := cs.takeWhile (·.isDigit)
  let rest := cs.dropWhile (·.isDigit)
  if ds.length = 0 then none
  else
    let n := ds.foldl (fun a d => 10 * a + (d.toNat - 48)) 0
    if n > 255 then none
    else if 1 < ds.length && ds.head? = some '0' then none
    else some (n, rest)

/-- Go parsing of a dotted-quad IPv4 address: exactly four fields separated by
dots, consuming the whole input. -/
def parseIPv4Go (cs : List Char) : Option IPBytes := do
  let (a, r) ← parseIPv4Field cs
  let r ← parseLit '.' r
  let (b, r) ← parseIPv4Field r
  let r ← parseLit '.' r
  let (c, r) ← parseIPv4Field r
  let r ← parseLit '.' r
  let (d, r) ← parseIPv4Field r
  if r = [] then pure [a, b, c, d] else none

/-- Hex-digit test used by the IPv6 parser. -/
def isHexDigitChar (c : Char) : Bool :=
  (hexDigit? c).isSome

/-- Main loop of the Go IPv6 parser: consumes one 16-bit hex group per
iteration, handling the `::` ellipsis and an embedded IPv4 tail. Returns the
accumulated bytes and the byte position of the ellipsis, if one occurred.
`fuel` bounds the number of groups; it exceeds the 8 a 16-byte address can
hold. -/
def parseIPv6Loop (fuel : Nat) (s : List Char) (acc : IPBytes) (ell : Option Nat) :
    Option (IPBytes × Option Nat) :=
  match fuel with
  | 0 => none
  | fuel + 1 =>
    if 16 ≤ acc.length then
      if s = [] then some (acc, ell) else none
    else
      let ds := s.takeWhile isHexDigitChar
      let rest := s.dropWhile isHexDigitChar
      if ds.length = 0 then none
      else
        let n := ds.foldl (fun a d => 16 * a + (hexDigit? d).getD 0) 0
        if n > 0xFFFF then none
        else if rest.head? = some '.' then
          if ell.isNone && acc.length ≠ 12 then none
          else if 16 < acc.length + 4 then none
          else
            match parseIPv4Go s with
            | some ip4 => some (acc ++ ip4, ell)
            | none => none
        else
          let acc := acc ++ [n / 256, n % 256]
          match rest with
          | [] => some (acc, ell)
          | ':' :: [] => none
          | ':' :: ':' :: rest2 =>
            if ell.isSome then none
            else if rest2 = [] then some (acc, some acc.length)
            else parseIPv6Loop fuel rest2 acc (some acc.length)
          | ':' :: rest2 => parseIPv6Loop fuel rest2 acc ell
          | _ => none

/-- Final step of the Go IPv6 parser: a complete address must not also have an
ellipsis, and an incomplete one is zero-expanded at the ellipsis position. -/
def parseIPv6Finish : Option (IPBytes × Option Nat) → Option IPBytes
  | none => none
  | some (acc, ell) =>
    if acc.length = 16 then
      if ell.isSome then none else some acc
    else
      match ell with
      | none => none
      | some e => some (acc.take e ++ List.replicate (16 - acc.length) 0 ++ acc.drop e)

/-- Go parsing of an IPv6 address (no zone; modern `net.ParseIP` rejects
zoned addresses). -/
def parseIPv6Go (cs : List Char) : Option IPBytes :=
  match cs with
  | ':' :: ':' :: rest =>
    if rest = [] then some (List.replicate 16 0)
    else parseIPv6Finish (parseIPv6Loop 10 rest [] (some 0))
  | _ => parseIPv6Finish (parseIPv6Loop 10 cs [] none)

/-- Dispatch of Go `net.ParseIP`: the first `.` or `:` in the string decides
between the IPv4 and the IPv6 parser; a string with neither is not an IP. -/
def parseIPDispatch : List Char → Option Bool
  | [] => none
  | c :: rest =>
    if c = '.' then some true
    else if c = ':' then some false
    else parseIPDispatch rest

/-- Go `net.ParseIP`: `none` models the `nil` result for unparsable input. -/
def parseIP (s : String) : Option IPBytes :=
  match parseIPDispatch s.data with
  | some true => parseIPv4Go s.data
  | some false => parseIPv6Go s.data
  | none => none

/-- Go `IP.To4`: a 4-byte address is returned as is; a 16-byte IPv4-mapped
address is shortened to its 4-byte form; anything else has no 4-byte form. -/
def ipTo4 (ip : IPBytes) : Option IPBytes :=
  if ip.length = 4 then some ip
  else
    match ip with
    | [0, 0, 0, 0, 0, 0, 0, 0, 0, 0, 0xFF, 0xFF, a, b, c, d] => some [a, b, c, d]
    | _ => none

/-- An IP network: the (masked) network number and the mask (Go `net.IPNet`). -/
structure IPNet where
  ip : IPBytes
  mask : IPBytes
deriving DecidableEq, Repr

/-- One byte of a CIDR mask with `k` leading one bits, `k ≤ 8`
(Go `net.CIDRMask`). -/
def maskByte (k : Nat) : Nat :=
  255 - (255 >>> k)

/-- Go `net.CIDRMask(n, 32)` as four bytes. -/
def cidrMask32 (n : Nat) : IPBytes :=
  [maskByte (min n 8), maskByte (min (n - 8) 8),
   maskByte (min (n - 16) 8), maskByte (min (n - 24) 8)]

/-- Go `net.ParseCIDR` for an IPv4 network `"a.b.c.d/n"`: the address part
must parse as a dotted quad, the prefix length must be a plain decimal number
of at most 32, and the returned network number is the address masked by the
prefix mask. -/
def parseCIDRv4 (s : String) : Option IPNet :=
  match s.data.splitOn '/' with
  | [addr, pre] => do
    let ip ← parseIPv4Go addr
    let (n, r) ← parseIPv4Field pre
    if r = [] && n ≤ 32 then
      let m := cidrMask32 n
      pure ⟨List.zipWith (fun a b => a &&& b) ip m, m⟩
    else none
  | _ => none

/-- The four hardcoded provider CIDR blocks (source: the `masks` package
variable). -/
def masks : List String :=
  ["174.37.245.32/29", "174.36.197.192/28", "173.193.199.16/28", "119.81.44.0/28"]

/-- The parsed provider subnets (source: the package `init` function; parsing
succeeds on all four mask strings). -/
def subnets : List IPNet :=
  masks.filterMap parseCIDRv4

/-- Go `(*IPNet).Contains`: reduce the address to 4-byte form when possible,
then compare masked network numbers byte by byte. -/
def ipnetContains (n : IPNet) (ip : IPBytes) : Bool :=
  let ip' := (ipTo4 ip).getD ip
  ip'.length = n.ip.length &&
    (List.zip (List.zip n.ip n.mask) ip').all
      (fun p => (p.1.1 &&& p.1.2) == (p.2 &&& p.1.2))

/-- Membership of an address in any of the four provider blocks (the loop body
of `IsTrustedIP`). -/
def inTrustedBlocks (ip : IPBytes) : Bool :=
  subnets.any (fun n => ipnetContains n ip)

/-- Source `IsTrustedIP`: parse the address (a `nil` result is modelled by the
empty byte list, which no subnet contains) and test it against each subnet. -/
def IsTrustedIP (ipStr : String) : Bool :=
  inTrustedBlocks ((parseIP ipStr).getD [])

/-- Dotted-quad rendering of four byte values, used to name concrete IPv4
addresses in theorem statements. -/
def dottedQuad (a b c d : Nat) : String :=
  toString a ++ "." ++ toString b ++ "." ++ toString c ++ "." ++ toString d

/-- Source `rawDeliveryReceipt`: the untyped transport record, all fields as
received strings. -/
structure RawDeliveryReceipt where
  To : String := ""
  NetworkCode : String := ""
  MessageID : String := ""
  MSISDN : String := ""
  Status : String := ""
  ErrorCode : String := ""
  Price : String := ""
  SCTS : String := ""
  Timestamp : String := ""
  ClientReference : String := ""
deriving DecidableEq, Repr

/-- Source `DeliveryReceipt`: the typed record, with the two timestamp fields
converted to instants. -/
structure DeliveryReceipt where
  To : String := ""
  NetworkCode : String := ""
  MessageID : String := ""
  MSISDN : String := ""
  Status : String := ""
  ErrorCode : String := ""
  Price : String := ""
  SCTS : Instant := 0
  Timestamp : Instant := 0
  ClientReference : String := ""
deriving DecidableEq, Repr

/-- Source `parseForm` (server.go): build the raw delivery receipt from the
form values. The source populates the `SCTS` field from the `client-ref` form
value, not from the `scts` form value (server.go line 211). -/
def parseForm (f : Form) : RawDeliveryReceipt :=
  { To := formValue f "to"
    NetworkCode := formValue f "network-code"
    MessageID := formValue f "messageId"
    MSISDN := formValue f "msisdn"
    Status := formValue f "status"
    ErrorCode := formValue f "err-code"
    Price := formValue f "price"
    ClientReference := formValue f "client-ref"
    SCTS := formValue f "client-ref"
    Timestamp := formValue f "message-timestamp" }

/-- Source `convertTimestamps` (server.go): unescape and parse the two
timestamp strings of the raw record. An error carries the message and status
code the source hands to `http.Error` before returning. -/
def convertTimestamps (raw : RawDeliveryReceipt) :
    Except (String × Nat) DeliveryReceipt :=
  match queryUnescape raw.SCTS with
  | .error _ => .error ("unable to return formvalue scts", 500)
  | .ok t =>
    match goParseCompact t with
    | none => .error ("unable to parse time value from scts", 500)
    | some scts =>
      match queryUnescape raw.Timestamp with
      | .error _ => .error ("unable to return formvalue message-timestamp", 500)
      | .ok t2 =>
        match goParseBare t2 with
        | none => .error ("unable to parse time value from message-timestamp", 500)
        | some ts =>
          .ok { To := raw.To
                NetworkCode := raw.NetworkCode
                MessageID := raw.MessageID
                MSISDN := raw.MSISDN
                Status := raw.Status
                ErrorCode := raw.ErrorCode
                Price := raw.Price
                ClientReference := raw.ClientReference
                SCTS := scts
                Timestamp := ts }

/-- Observable outcome of one handler invocation: HTTP status, response body,
and the record passed to the out channel (if any). -/
structure HttpOutcome (α : Type) where
  status : Nat
  body : String
  sent : Option α
deriving DecidableEq, Repr

/-- Go `http.Error(w, msg, code)`: sets the status and writes the message
followed by a newline; nothing is sent on the out channel. -/
def httpError (msg : String) (code : Nat) : HttpOutcome α :=
  ⟨code, msg ++ "\n", none⟩

/-- IP gate of both handlers (source: the `verifyIPs` block): when enabled,
the request is rejected unless `net.SplitHostPort` succeeded on the remote
address (`remoteHost = some h`) and the host is a trusted IP. A failed split
leaves an untrusted empty host, so it is rejected as well. -/
def ipGateRejects (verifyIPs : Bool) (remoteHost : Option String) : Bool :=
  verifyIPs && !(match remoteHost with
    | some h => IsTrustedIP h
    | none => false)

/-- A delivery-receipt webhook request, carrying the request line and header
data the handler inspects together with the outcomes of the opaque
standard-library calls on the request body: `parseFormResult` is the outcome
of `req.ParseForm`, and `jsonBody` the combined outcome of reading the body
and JSON-unmarshalling it into a raw receipt. -/
structure DeliveryRequest where
  remoteHost : Option String := none
  rawQuery : String := ""
  contentLength : Int := 0
  contentType : Option String := none
  parseFormResult : Except String Form := .ok []
  jsonBody : Except String RawDeliveryReceipt := .error "no body"

/-- Decode part of `NewDeliveryHandler` (server.go): content-type dispatch to
the JSON or form decoder, timestamp conversion, and hand-off to the out
channel. -/
def deliveryDecodeStep (req : DeliveryRequest) : HttpOutcome DeliveryReceipt :=
  match req.contentType with
  | none => httpError "Content-Type not set" 400
  | some ct =>
    if ct = "application/json" then
      match req.jsonBody with
      | .error _ => httpError "" 500
      | .ok raw =>
        match convertTimestamps raw with
        | .error (msg, code) => httpError msg code
        | .ok dlr => ⟨200, "", some dlr⟩
    else if ct = "application/x-www-form-urlencoded" then
      match req.parseFormResult with
      | .error _ => httpError "Failed to parse form data" 500
      | .ok f =>
        match convertTimestamps (parseForm f) with
        | .error (msg, code) => httpError msg code
        | .ok dlr => ⟨200, "", some dlr⟩
    else httpError ("Content-Type " ++ ct ++ " not supported.") 400

/-- Source `NewDeliveryHandler` (server.go): IP gate, health-check short
circuit on an empty query and empty body, then the decode step. -/
def NewDeliveryHandler (verifyIPs : Bool) (req : DeliveryRequest) :
    HttpOutcome DeliveryReceipt :=
  if ipGateRejects verifyIPs req.remoteHost = true then httpError "" 500
  else if req.rawQuery = "" ∧ req.contentLength ≤ 0 then ⟨200, "", none⟩
  else deliveryDecodeStep req

/-- Source `ReceivedMessage`: typed record for inbound messages. The nested
`Concat` struct is flattened into the three `Concat`-prefixed fields; `Data`
and `UDH` byte slices are modelled as strings; the Go field `Type` is named
`MsgType` here because `Type` is reserved in Lean. Field defaults are the Go zero
values given by `new(ReceivedMessage)`. -/
structure ReceivedMessage where
  MsgType : Int := 0
  To : String := ""
  MSISDN : String := ""
  NetworkCode : String := ""
  ID : String := ""
  Timestamp : Instant := 0
  Concatenated : Bool := false
  ConcatReference : String := ""
  ConcatTotal : Int := 0
  ConcatPart : Int := 0
  Text : String := ""
  Keyword : String := ""
  Data : String := ""
  UDH : String := ""
deriving DecidableEq, Repr

/-- Unescape and parse the `message-timestamp` form value (the
`url.QueryUnescape` plus `time.Parse` steps of `NewMessageHandler`); both
failure modes lead to the same `http.Error(w, "", 500)` in the source, so a
single `none` models them. -/
def parseTimestampField (f : Form) : Option Instant :=
  match queryUnescape (formValue f "message-timestamp") with
  | .error _ => none
  | .ok t => goParseBare t

/-- Concatenation block of `NewMessageHandler`: when the `concat` form value
is `"true"`, both counters must parse as integers and the concatenation
fields are filled; otherwise the record passes through unchanged. -/
def concatStep (m : ReceivedMessage) (f : Form) :
    Except (String × Nat) ReceivedMessage :=
  if formValue f "concat" = "true" then
    match goAtoi (formValue f "concat-total") with
    | none => .error ("", 500)
    | some total =>
      match goAtoi (formValue f "concat-part") with
      | none => .error ("", 500)
      | some part =>
        .ok { m with Concatenated := true,
                     ConcatReference := formValue f "concat-ref",
                     ConcatTotal := total, ConcatPart := part }
  else .ok m

/-- Tail of the inbound-message decode (source `NewMessageHandler` after the
`type` switch): copy the pass-through fields, unescape and parse
`message-timestamp`, and handle the concatenation block. Errors carry the
`http.Error` arguments of the source (always an empty message and 500). -/
def decodeCommon (m : ReceivedMessage) (f : Form) :
    Except (String × Nat) ReceivedMessage :=
  match parseTimestampField f with
  | none => .error ("", 500)
  | some ts =>
    concatStep { m with To := formValue f "to", MSISDN := formValue f "msisdn",
                        NetworkCode := formValue f "network-code",
                        ID := formValue f "messageId",
                        Keyword := formValue f "keyword",
                        Timestamp := ts } f

/-- Inbound-message decode (source `NewMessageHandler`): discriminate on the
`type` form value — `text` and `unicode` fill `Text` (tags 1 and 2), `binary`
fills `Data` and `UDH` (tag 3), anything else is an error — then run the
common tail. -/
def decodeReceivedMessage (f : Form) : Except (String × Nat) ReceivedMessage :=
  if formValue f "type" = "text" then
    match queryUnescape (formValue f "text") with
    | .error _ => .error ("", 500)
    | .ok txt => decodeCommon { MsgType := 1, Text := txt } f
  else if formValue f "type" = "unicode" then
    match queryUnescape (formValue f "text") with
    | .error _ => .error ("", 500)
    | .ok txt => decodeCommon { MsgType := 2, Text := txt } f
  else if formValue f "type" = "binary" then
    match queryUnescape (formValue f "data") with
    | .error _ => .error ("", 500)
    | .ok dt =>
      match queryUnescape (formValue f "udh") with
      | .error _ => .error ("", 500)
      | .ok udh => decodeCommon { MsgType := 3, Data := dt, UDH := udh } f
  else .error ("", 500)

/-- An inbound-message webhook request. `form` is the form data available to
`req.FormValue` after the handler's unchecked `req.ParseForm` call. -/
structure MessageRequest where
  remoteHost : Option String := none
  rawQuery : String := ""
  contentLength : Int := 0
  form : Form := []

/-- Source `NewMessageHandler` (server.go): IP gate, health-check short
circuit on an empty query (a plain `return`, leaving the default 200 status),
then the inbound-message decode and hand-off to the out channel. -/
def NewMessageHandler (verifyIPs : Bool) (req : MessageRequest) :
    HttpOutcome ReceivedMessage :=
  if ipGateRejects verifyIPs req.remoteHost = true then httpError "" 500
  else if req.rawQuery = "" then ⟨200, "", none⟩
  else
    match decodeReceivedMessage req.form with
    | .error (msg, code) => httpError msg code
    | .ok m => ⟨200, "", some m⟩

/-- Go `len` on a string: the UTF-8 byte length. -/
def goLen (s : String) : Nat :=
  s.utf8ByteSize

/-- Source `SMSMessage` (sms.go): the fields the `Send` validation inspects.
`Body` and `UDH` byte slices are modelled as byte lists; the remaining
payload fields do not influence validation and are omitted. -/
structure SMSMessage where
  From : String := ""
  To : String := ""
  MsgType : String := ""
  Text : String := ""
  ClientReference : String := ""
  Body : List Nat := []
  UDH : List Nat := []
  Title : String := ""
  URL : String := ""
deriving DecidableEq, Repr

/-- Result of running `SMS.Send` up to the point where the HTTP transport
would be invoked: either a validation error returned before any network I/O,
or the invocation of the transport with the validated message. -/
inductive SendStep where
  | validationError (msg : String)
  | transportInvoked (msg : SMSMessage)
deriving DecidableEq, Repr

/-- Source `SMS.Send` (sms.go), modelled up to the transport call: the
From/To/ClientReference validations, then the per-type payload validations of
the `switch`, then the transport invocation. Credential injection and JSON
marshalling (which cannot fail for this struct) sit between validation and
transport in the source and are elided. -/
def SMS_Send (msg : SMSMessage) : SendStep :=
  if goLen msg.From ≤ 0 then .validationError "Invalid From field specified"
  else if goLen msg.To ≤ 0 then .validationError "Invalid To field specified"
  else if 40 < goLen msg.ClientReference then
    .validationError "Client reference too long"
  else
    match msg.MsgType with
    | "text" => .transportInvoked msg
    | "unicode" =>
      if goLen msg.Text ≤ 0 then .validationError "Invalid message text"
      else .transportInvoked msg
    | "binary" =>
      if msg.UDH.length = 0 || msg.Body.length = 0 then
        .validationError "Invalid binary message"
      else .transportInvoked msg
    | "wappush" =>
      if msg.URL.length = 0 || msg.Title.length = 0 then
        .validationError "Invalid WAP Push parameters"
      else .transportInvoked msg
    | _ => .transportInvoked msg

/-- Source `messageClassMap` lookup as used by `MessageClass.String`
(sms.go): a Go map access returns the zero value — the empty string — for a
key with no entry, and the method has no fallback of its own. `MessageClass`
is a Go `int`; the constants Flash, Standard, SIMData, Forward are 0..3. -/
def messageClassString (m : Int) : String :=
  if m = 0 then "flash"
  else if m = 1 then "standard"
  else if m = 2 then "SIM data"
  else if m = 3 then "forward"
  else ""

/-- Success test on an `Except` value. -/
def exceptIsOk : Except ε α → Bool
  | .ok _ => true
  | .error _ => false

/-- Decidable equality for `Except`, needed to evaluate concrete decode
results inside `decide`. -/
instance [DecidableEq ε] [DecidableEq α] : DecidableEq (Except ε α)
  | .error a, .error b =>
    if h : a = b then isTrue (by rw [h])
    else isFalse (by intro hh; cases hh; exact h rfl)
  | .ok a, .ok b =>
    if h : a = b then isTrue (by rw [h])
    else isFalse (by intro hh; cases hh; exact h rfl)
  | .error _, .ok _ => isFalse (by intro h; cases h)
  | .ok _, .error _ => isFalse (by intro h; cases h)

/-- Substring occurrence test on character lists. -/
def occursIn (needle : List Char) : List Char → Bool
  | [] => needle.isEmpty
  | c :: t => List.isPrefixOf needle (c :: t) || occursIn needle t

/-- Substring occurrence test on strings, used to state that an error body
does (or does not) name a value. -/
def strOccursIn (needle hay : String) : Bool :=
  occursIn needle.data hay.data

/-- Concrete form record exercising the delivery-receipt form decoder: the
`scts` and `client-ref` values denote different compact timestamps. -/
def c1Form : Form :=
  [("to", "447700900000"), ("scts", "2205051435"), ("client-ref", "0001010000"),
   ("message-timestamp", "2022-05-05 14:35:48")]

/-- Concrete form-encoded delivery-receipt request wrapping `c1Form`. -/
def c1Request : DeliveryRequest :=
  { rawQuery := "to=447700900000"
    contentType := some "application/x-www-form-urlencoded"
    parseFormResult := .ok c1Form }

/-- Raw delivery receipt whose `scts` string is empty. -/
def c2RawEmptyScts : RawDeliveryReceipt :=
  { SCTS := "", Timestamp := "2022-05-05 14:35:48" }

/-- Raw delivery receipt whose `message-timestamp` string is empty. -/
def c2RawEmptyTimestamp : RawDeliveryReceipt :=
  { SCTS := "2205051435", Timestamp := "" }

/-- Outbound message whose client reference is 41 characters long. -/
def c5Message : SMSMessage :=
  { From := "go-nexmo", To := "00358123412345", MsgType := "text",
    Text := "hello",
    ClientReference := "12345678901234567890123456789012345678901" }

/-- Inbound-message request whose `type` value is not one of the three
recognised discriminators. -/
def c6Request : MessageRequest :=
  { rawQuery := "type=flash"
    form := [("type", "flash"), ("text", "Hi"),
             ("message-timestamp", "2022-05-05 14:35:48")] }

/-- Inbound form with a valid concatenation block. -/
def c7Form : Form :=
  [("type", "text"), ("text", "Hi"), ("message-timestamp", "2022-05-05 14:35:48"),
   ("concat", "true"), ("concat-ref", "r9"), ("concat-total", "3"),
   ("concat-part", "1")]

/-- The message `c7Form` decodes to. -/
def c7Message : ReceivedMessage :=
  { MsgType := 1, Text := "Hi", Timestamp := mkInstant 2022 5 5 14 35 48 0,
    Concatenated := true, ConcatReference := "r9", ConcatTotal := 3,
    ConcatPart := 1 }

/-- Delivery request with a non-empty query and no Content-Type header. -/
def c9Request : DeliveryRequest :=
  { rawQuery := "to=1", contentLength := 0, contentType := none }

/-- Delivery request with an unsupported content type. -/
def c9UnsupportedRequest : DeliveryRequest :=
  { rawQuery := "to=1", contentLength := 4, contentType := some "text/plain" }

/-- Every error produced by `convertTimestamps` carries status code 500 and a
non-empty reason phrase. -/
theorem convertTimestamps_error_code (raw : RawDeliveryReceipt) (p : String × Nat)
    (h : convertTimestamps raw = .error p) : p.2 = 500 ∧ p.1 ≠ "" := by
  unfold convertTimestamps at h
  split at h
  · cases h; exact ⟨rfl, by decide⟩
  · split at h
    · cases h; exact ⟨rfl, by decide⟩
    · split at h
      · cases h; exact ⟨rfl, by decide⟩
      · split at h
        · cases h; exact ⟨rfl, by decide⟩
        · cases h

/-- The concatenation step does not alter the type tag or the content fields,
and sets the flag exactly when the form asks for it. -/
theorem concatStep_fields (m0 : ReceivedMessage) (f : Form) (m : ReceivedMessage)
    (h : concatStep m0 f = .ok m) :
    m.MsgType = m0.MsgType ∧ m.Text = m0.Text ∧ m.Data = m0.Data ∧
      m.UDH = m0.UDH ∧
      m.Concatenated =
        (if formValue f "concat" = "true" then true else m0.Concatenated) := by
  unfold concatStep at h
  split at h
  case isTrue hc =>
    split at h
    · cases h
    · split at h
      · cases h
      · injection h with h
        subst h
        simp [hc]
  case isFalse hc =>
    injection h with h
    subst h
    simp [hc]

/-- When the concatenation flag is set, a successful concatenation step means
both counters parsed and the result carries them. -/
theorem concatStep_concat (m0 : ReceivedMessage) (f : Form) (m : ReceivedMessage)
    (hc : formValue f "concat" = "true") (h : concatStep m0 f = .ok m) :
    ∃ t p, goAtoi (formValue f "concat-total") = some t ∧
      goAtoi (formValue f "concat-part") = some p ∧
      m.Concatenated = true ∧ m.ConcatTotal = t ∧ m.ConcatPart = p := by
  unfold concatStep at h
  rw [if_pos hc] at h
  split at h
  · cases h
  · split at h
    · cases h
    · injection h with h
      subst h
      exact ⟨_, _, by assumption, by assumption, rfl, rfl, rfl⟩

/-- A successful common decode went through the concatenation step with a
record inheriting the starting record's tag, contents and flag. -/
theorem decodeCommon_ok_concatStep (m0 : ReceivedMessage) (f : Form)
    (m : ReceivedMessage) (h : decodeCommon m0 f = .ok m) :
    ∃ m1, concatStep m1 f = .ok m ∧ m1.MsgType = m0.MsgType ∧
      m1.Text = m0.Text ∧ m1.Data = m0.Data ∧ m1.UDH = m0.UDH ∧
      m1.Concatenated = m0.Concatenated := by
  unfold decodeCommon at h
  split at h
  · cases h
  · exact ⟨_, h, rfl, rfl, rfl, rfl, rfl⟩

/-- The common decode tail does not alter the type tag or the content fields
of the record it is given, and the concatenation flag of its result is
dictated by the form. -/
theorem decodeCommon_fields (m0 : ReceivedMessage) (f : Form) (m : ReceivedMessage)
    (h : decodeCommon m0 f = .ok m) :
    m.MsgType = m0.MsgType ∧ m.Text = m0.Text ∧ m.Data = m0.Data ∧
      m.UDH = m0.UDH ∧
      m.Concatenated =
        (if formValue f "concat" = "true" then true else m0.Concatenated) := by
  obtain ⟨m1, h1, ht, htx, hd, hu, hcc⟩ := decodeCommon_ok_concatStep m0 f m h
  obtain ⟨g1, g2, g3, g4, g5⟩ := concatStep_fields m1 f m h1
  rw [g1, g2, g3, g4, g5, ht, htx, hd, hu, hcc]
  exact ⟨rfl, rfl, rfl, rfl, rfl⟩

/-- When the concatenation flag is set, a successful common decode implies
both counters parsed, and the result carries them. -/
theorem decodeCommon_concat (m0 : ReceivedMessage) (f : Form) (m : ReceivedMessage)
    (hc : formValue f "concat" = "true") (h : decodeCommon m0 f = .ok m) :
    ∃ t p, goAtoi (formValue f "concat-total") = some t ∧
      goAtoi (formValue f "concat-part") = some p ∧
      m.Concatenated = true ∧ m.ConcatTotal = t ∧ m.ConcatPart = p := by
  obtain ⟨m1, h1, _, _, _, _, _⟩ := decodeCommon_ok_concatStep m0 f m h
  exact concatStep_concat m1 f m hc h1

/-- A successful inbound decode always went through the common tail, starting
from a record with the concatenation flag still clear. -/
theorem decode_ok_exists_common (f : Form) (m : ReceivedMessage)
    (h : decodeReceivedMessage f = .ok m) :
    ∃ m0, decodeCommon m0 f = .ok m ∧ m0.Concatenated = false := by
  unfold decodeReceivedMessage at h
  split at h
  · split at h
    · cases h
    · exact ⟨_, h, rfl⟩
  · split at h
    · split at h
      · cases h
      · exact ⟨_, h, rfl⟩
    · split at h
      · split at h
        · cases h
        · split at h
          · cases h
          · exact ⟨_, h, rfl⟩
      · cases h

/-- The concatenation step is insensitive to the type tag of its record. -/
theorem concatStep_msgType (m0 : ReceivedMessage) (t : Int) (f : Form) :
    concatStep { m0 with MsgType := t } f =
      (concatStep m0 f).map (fun x => { x with MsgType := t }) := by
  unfold concatStep
  by_cases hc : formValue f "concat" = "true"
  · rw [if_pos hc, if_pos hc]
    cases goAtoi (formValue f "concat-total") with
    | none => rfl
    | some total =>
      cases goAtoi (formValue f "concat-part") with
      | none => rfl
      | some part => rfl
  · rw [if_neg hc, if_neg hc]
    rfl

/-- The common decode tail is insensitive to the type tag of its starting
record: changing the tag commutes with decoding. -/
theorem decodeCommon_msgType (m0 : ReceivedMessage) (t : Int) (f : Form) :
    decodeCommon { m0 with MsgType := t } f =
      (decodeCommon m0 f).map (fun x => { x with MsgType := t }) := by
  unfold decodeCommon
  cases parseTimestampField f with
  | none => rfl
  | some ts =>
    exact concatStep_msgType
      { m0 with To := formValue f "to", MSISDN := formValue f "msisdn",
                NetworkCode := formValue f "network-code",
                ID := formValue f "messageId",
                Keyword := formValue f "keyword", Timestamp := ts } t f

/-- The timestamp field parse only looks at the `message-timestamp` key. -/
theorem parseTimestampField_congrKeys (f f' : Form)
    (h : ∀ k, k ≠ "type" → formValue f k = formValue f' k) :
    parseTimestampField f = parseTimestampField f' := by
  unfold parseTimestampField
  rw [h "message-timestamp" (by decide)]

/-- The concatenation step depends on the form only through keys other than
`type`. -/
theorem concatStep_congrKeys (m0 : ReceivedMessage) (f f' : Form)
    (h : ∀ k, k ≠ "type" → formValue f k = formValue f' k) :
    concatStep m0 f = concatStep m0 f' := by
  unfold concatStep
  simp only [h "concat" (by decide), h "concat-ref" (by decide),
    h "concat-total" (by decide), h "concat-part" (by decide)]

/-- The common decode tail depends on the form only through the keys other
than `type`. -/
theorem decodeCommon_congrKeys (f f' : Form) (m0 : ReceivedMessage)
    (h : ∀ k, k ≠ "type" → formValue f k = formValue f' k) :
    decodeCommon m0 f = decodeCommon m0 f' := by
  unfold decodeCommon
  rw [parseTimestampField_congrKeys f f' h]
  cases parseTimestampField f' with
  | none => rfl
  | some ts =>
    rw [h "to" (by decide), h "msisdn" (by decide), h "network-code" (by decide),
      h "messageId" (by decide), h "keyword" (by decide)]
    exact concatStep_congrKeys _ f f' h

/-- C1: the claim fails on the code. For a form-encoded delivery receipt the
raw record's `SCTS` field is populated from the `client-ref` form value, not
from the `scts` form value (server.go line 211), so the delivered
`DeliveryReceipt.SCTS` is the compact-parsed `client-ref` string. On `c1Form`
— whose `scts` value `"2205051435"` and `client-ref` value `"0001010000"`
denote different compact timestamps — the handler delivers the instant
2000-01-01T00:00Z encoded by `client-ref`, not the instant 2022-05-05T14:35Z
encoded by `scts`. -/
theorem C1_scts_populated_from_client_ref :
    (parseForm c1Form).SCTS = formValue c1Form "client-ref" ∧
    (parseForm c1Form).SCTS ≠ formValue c1Form "scts" ∧
    ((NewDeliveryHandler false c1Request).sent.map DeliveryReceipt.SCTS)
      = some (mkInstant 2000 1 1 0 0 0 0) ∧
    goParseCompact (formValue c1Form "scts")
      = some (mkInstant 2022 5 5 14 35 0 0) ∧
    mkInstant 2000 1 1 0 0 0 0 ≠ mkInstant 2022 5 5 14 35 0 0 := by
  refine ⟨rfl, by decide, by decide, by decide, by decide⟩

/-- C2: the claim fails on the code. `convertTimestamps` hands the raw
timestamp strings straight to `time.Parse`, which rejects the empty string,
so a raw receipt with an empty `scts` (or an empty `message-timestamp`)
string makes the decode fail with a parse error instead of producing the
zero instant. -/
theorem C2_empty_timestamp_fails_decode :
    convertTimestamps c2RawEmptyScts
      = .error ("unable to parse time value from scts", 500) ∧
    convertTimestamps c2RawEmptyTimestamp
      = .error ("unable to parse time value from message-timestamp", 500) := by
  exact ⟨by decide, by decide⟩

/-- C3: confirmed against the spec-modelled `parseMessageTimestamp` (the
function is absent from the provided sources; only its test is). The layouts
are tried in order and the first match wins, so the two sign-less `0000`
variants parse as 2022-05-05T14:35:48Z via the literal-`0000` layouts, and
the `+0000` variant parses as 2022-05-05T16:05:13Z via the signed-zone
layout, all without error. -/
theorem C3_message_timestamp_fallback_layouts :
    parseMessageTimestamp "2022-05-05 14:35:48 0000"
      = .ok (mkInstant 2022 5 5 14 35 48 0) ∧
    parseMessageTimestamp "2022-05-05 14:35:48  0000"
      = .ok (mkInstant 2022 5 5 14 35 48 0) ∧
    parseMessageTimestamp "2022-05-05 16:05:13 +0000"
      = .ok (mkInstant 2022 5 5 16 5 13 0) := by
  exact ⟨by decide, by decide, by decide⟩

/-- C10: confirmed. `MessageClass.String` is a bare lookup in
`messageClassMap`, so every value outside the four defined constants yields
the Go zero value for strings — the empty string — while the four constants
map to their documented names. -/
theorem C10_message_class_string :
    (∀ m : Int, m < 0 ∨ 3 < m → messageClassString m = "") ∧
    messageClassString 0 = "flash" ∧
    messageClassString 1 = "standard" ∧
    messageClassString 2 = "SIM data" ∧
    messageClassString 3 = "forward" := by
  refine ⟨?_, rfl, rfl, rfl, rfl⟩
  intro m h
  have h0 : m ≠ 0 := by omega
  have h1 : m ≠ 1 := by omega
  have h2 : m ≠ 2 := by omega
  have h3 : m ≠ 3 := by omega
  simp [messageClassString, h0, h1, h2, h3]

/-- C10 witness: the out-of-range values 4 and -1 both render as the empty
string. -/
theorem C10_message_class_string_witness :
    messageClassString 4 = "" ∧ messageClassString (-1) = "" :=
  ⟨C10_message_class_string.1 4 (Or.inr (by norm_num)),
   C10_message_class_string.1 (-1) (Or.inl (by norm_num))⟩

/-- C5: confirmed. `SMS.Send` returns a validation error before the point
where the HTTP transport would be invoked whenever the sender is empty, the
recipient is empty, or the client reference exceeds 40 bytes (Go `len`; 40
characters for ASCII references). -/
theorem C5_send_validates_before_transport :
    ∀ msg : SMSMessage,
      msg.From = "" ∨ msg.To = "" ∨ 40 < goLen msg.ClientReference →
      ∃ e, SMS_Send msg = .validationError e := by
  intro msg h
  unfold SMS_Send
  by_cases hF : goLen msg.From ≤ 0
  · rw [if_pos hF]
    exact ⟨_, rfl⟩
  · rw [if_neg hF]
    by_cases hT : goLen msg.To ≤ 0
    · rw [if_pos hT]
      exact ⟨_, rfl⟩
    · rw [if_neg hT]
      have hC : 40 < goLen msg.ClientReference := by
        rcases h with h | h | h
        · exact absurd (by rw [h]; rfl : goLen msg.From ≤ 0) hF
        · exact absurd (by rw [h]; rfl : goLen msg.To ≤ 0) hT
        · exact h
      rw [if_pos hC]
      exact ⟨_, rfl⟩

/-- C5 witness: a message with non-empty sender and recipient and a 41-byte
client reference is rejected by validation, so the transport is not reached. -/
theorem C5_send_validates_before_transport_witness :
    ∃ e, SMS_Send c5Message = .validationError e :=
  C5_send_validates_before_transport c5Message (Or.inr (Or.inr (by decide)))

/-- C8: confirmed. When the IP gate passes, a request with an empty query
string and zero content length is answered with HTTP 200 and an empty body by
both handlers, nothing is sent on the out channel, and no decoding happens
(both handlers return before touching the body). -/
theorem C8_health_check_requests :
    ∀ (v : Bool) (dreq : DeliveryRequest) (mreq : MessageRequest),
      ipGateRejects v dreq.remoteHost = false →
      dreq.rawQuery = "" → dreq.contentLength = 0 →
      ipGateRejects v mreq.remoteHost = false →
      mreq.rawQuery = "" →
      NewDeliveryHandler v dreq = ⟨200, "", none⟩ ∧
        NewMessageHandler v mreq = ⟨200, "", none⟩ := by
  intro v dreq mreq hg1 hq1 hcl hg2 hq2
  have hcl' : dreq.contentLength ≤ 0 := by omega
  constructor
  · unfold NewDeliveryHandler
    rw [hg1]
    simp [hq1, hcl']
  · unfold NewMessageHandler
    rw [hg2]
    simp [hq2]

/-- C8 witness: the default (all-empty) requests with IP verification off are
both answered 200 with nothing sent. -/
theorem C8_health_check_requests_witness :
    NewDeliveryHandler false {} = ⟨200, "", none⟩ ∧
      NewMessageHandler false {} = ⟨200, "", none⟩ :=
  C8_health_check_requests false {} {} rfl rfl rfl rfl rfl

/-- C4: confirmed. `IsTrustedIP` is true exactly on strings that parse as an
IP address lying in one of the four hardcoded provider blocks: every one of
the eight addresses of 174.37.245.32/29 is trusted, 8.8.8.8 is not, and an
unparsable string is not trusted (Go `ParseIP` returns nil, which no subnet
contains; no error is raised). -/
theorem C4_is_trusted_ip :
    (∀ n : Fin 8, IsTrustedIP (dottedQuad 174 37 245 (32 + n.val)) = true) ∧
    IsTrustedIP "8.8.8.8" = false ∧
    (∀ s, parseIP s = none → IsTrustedIP s = false) ∧
    (∀ s, IsTrustedIP s = true ↔
      ∃ ip, parseIP s = some ip ∧ inTrustedBlocks ip = true) := by
  refine ⟨by decide, by decide, ?_, ?_⟩
  · intro s h
    unfold IsTrustedIP
    rw [h]
    decide
  · intro s
    constructor
    · intro h
      unfold IsTrustedIP at h
      cases hp : parseIP s with
      | none =>
        rw [hp] at h
        exact absurd h (by decide)
      | some ip =>
        rw [hp] at h
        exact ⟨ip, rfl, h⟩
    · rintro ⟨ip, hip, hin⟩
      unfold IsTrustedIP
      rw [hip]
      exact hin

/-- C4 witness: a string that is no IP address is untrusted, and the block
address 174.37.245.33 (the rendering of 174.37.245.(32+1)) is trusted. -/
theorem C4_is_trusted_ip_witness :
    IsTrustedIP "not-an-ip" = false ∧
      IsTrustedIP (dottedQuad 174 37 245 (32 + 1)) = true :=
  ⟨C4_is_trusted_ip.2.2.1 "not-an-ip" (by decide),
   C4_is_trusted_ip.1 ⟨1, by omega⟩⟩

/-- C6 counterexample: the claim as stated is false at a record whose `type`
value is `"flash"`. The handler does fail and sends nothing, but the error
response has an empty message (body `"\n"` from `http.Error(w, "", 500)`) and
does not name the offending value, contrary to the claim. -/
theorem C6_counterexample :
    NewMessageHandler false c6Request = ⟨500, "\n", none⟩ ∧
      strOccursIn (formValue c6Request.form "type")
        (NewMessageHandler false c6Request).body = false := by
  exact ⟨by decide, by decide⟩

/-- C6, amended: the decoder discriminates on `type` — `text` and `unicode`
fill `Text` from the percent-decoded `text` value and differ only in the type
tag, `binary` fills `Data` and `UDH` from the percent-decoded `data` and
`udh` values, and every other value (including a missing field) fails the
decode with HTTP 500 and an empty error message (the error does not name the
value), producing no message. -/
theorem C6_inbound_type_discrimination :
    (∀ f m, formValue f "type" = "text" → decodeReceivedMessage f = .ok m →
        queryUnescape (formValue f "text") = .ok m.Text ∧ m.MsgType = 1) ∧
    (∀ f m, formValue f "type" = "unicode" → decodeReceivedMessage f = .ok m →
        queryUnescape (formValue f "text") = .ok m.Text ∧ m.MsgType = 2) ∧
    (∀ f m, formValue f "type" = "binary" → decodeReceivedMessage f = .ok m →
        queryUnescape (formValue f "data") = .ok m.Data ∧
          queryUnescape (formValue f "udh") = .ok m.UDH ∧ m.MsgType = 3) ∧
    (∀ f, formValue f "type" ≠ "text" → formValue f "type" ≠ "unicode" →
        formValue f "type" ≠ "binary" →
        decodeReceivedMessage f = .error ("", 500)) ∧
    (∀ f f', (∀ k, k ≠ "type" → formValue f k = formValue f' k) →
        formValue f "type" = "text" → formValue f' "type" = "unicode" →
        decodeReceivedMessage f' =
          (decodeReceivedMessage f).map (fun x => { x with MsgType := 2 })) := by
  refine ⟨?_, ?_, ?_, ?_, ?_⟩
  · intro f m hf hok
    unfold decodeReceivedMessage at hok
    rw [if_pos hf] at hok
    cases hq : queryUnescape (formValue f "text") with
    | error e => rw [hq] at hok; cases hok
    | ok txt =>
      rw [hq] at hok
      obtain ⟨h1, h2, _, _, _⟩ := decodeCommon_fields _ _ _ hok
      exact ⟨congrArg Except.ok h2.symm, h1⟩
  · intro f m hf hok
    unfold decodeReceivedMessage at hok
    have hf1 : formValue f "type" ≠ "text" := by rw [hf]; decide
    rw [if_neg hf1, if_pos hf] at hok
    cases hq : queryUnescape (formValue f "text") with
    | error e => rw [hq] at hok; cases hok
    | ok txt =>
      rw [hq] at hok
      obtain ⟨h1, h2, _, _, _⟩ := decodeCommon_fields _ _ _ hok
      exact ⟨congrArg Except.ok h2.symm, h1⟩
  · intro f m hf hok
    unfold decodeReceivedMessage at hok
    have hf1 : formValue f "type" ≠ "text" := by rw [hf]; decide
    have hf2 : formValue f "type" ≠ "unicode" := by rw [hf]; decide
    rw [if_neg hf1, if_neg hf2, if_pos hf] at hok
    cases hq : queryUnescape (formValue f "data") with
    | error e => rw [hq] at hok; cases hok
    | ok dt =>
      rw [hq] at hok
      cases hu : queryUnescape (formValue f "udh") with
      | error e => rw [hu] at hok; cases hok
      | ok udh =>
        rw [hu] at hok
        obtain ⟨h1, _, h3, h4, _⟩ := decodeCommon_fields _ _ _ hok
        exact ⟨congrArg Except.ok h3.symm, congrArg Except.ok h4.symm, h1⟩
  · intro f h1 h2 h3
    unfold decodeReceivedMessage
    rw [if_neg h1, if_neg h2, if_neg h3]
  · intro f f' hk hf hf'
    have htext := hk "text" (by decide)
    have hf'1 : formValue f' "type" ≠ "text" := by rw [hf']; decide
    unfold decodeReceivedMessage
    rw [if_pos hf, if_neg hf'1, if_pos hf', ← htext]
    cases hq : queryUnescape (formValue f "text") with
    | error e => rfl
    | ok txt =>
      dsimp only
      rw [← decodeCommon_congrKeys f f' _ hk]
      exact decodeCommon_msgType { MsgType := 1, Text := txt } 2 f

/-- C6 witness: a record whose `type` is `"wap"` fails the decode with the
empty error message and status 500. -/
theorem C6_inbound_type_discrimination_witness :
    decodeReceivedMessage [("type", "wap")] = .error ("", 500) :=
  C6_inbound_type_discrimination.2.2.2.1 [("type", "wap")]
    (by decide) (by decide) (by decide)

/-- C7: confirmed. When `concat` equals `"true"`, a successful decode implies
both `concat-total` and `concat-part` parsed as integers and the message
carries them with the flag set; if either fails integer parsing the whole
decode fails; when `concat` is not `"true"` the flag stays false. -/
theorem C7_concat_fields :
    (∀ f m, formValue f "concat" = "true" → decodeReceivedMessage f = .ok m →
        ∃ t p, goAtoi (formValue f "concat-total") = some t ∧
          goAtoi (formValue f "concat-part") = some p ∧
          m.Concatenated = true ∧ m.ConcatTotal = t ∧ m.ConcatPart = p) ∧
    (∀ f, formValue f "concat" = "true" →
        goAtoi (formValue f "concat-total") = none ∨
          goAtoi (formValue f "concat-part") = none →
        exceptIsOk (decodeReceivedMessage f) = false) ∧
    (∀ f m, formValue f "concat" ≠ "true" → decodeReceivedMessage f = .ok m →
        m.Concatenated = false) := by
  refine ⟨?_, ?_, ?_⟩
  · intro f m hc hok
    obtain ⟨m0, h0, _⟩ := decode_ok_exists_common f m hok
    exact decodeCommon_concat m0 f m hc h0
  · intro f hc hfail
    cases hd : decodeReceivedMessage f with
    | error e => rfl
    | ok m =>
      exfalso
      obtain ⟨m0, h0, _⟩ := decode_ok_exists_common f m hd
      obtain ⟨t, p, h1, h2, _, _, _⟩ := decodeCommon_concat m0 f m hc h0
      rcases hfail with hx | hx
      · rw [hx] at h1; cases h1
      · rw [hx] at h2; cases h2
  · intro f m hc hok
    obtain ⟨m0, h0, hcc⟩ := decode_ok_exists_common f m hok
    have hfld := (decodeCommon_fields m0 f m h0).2.2.2.2
    rw [if_neg hc] at hfld
    rw [hfld, hcc]

/-- C7 witness: the record with `concat-total=3`, `concat-part=1` decodes to
`c7Message`, which has `Concatenated = true`, `Total = 3`, `Part = 1`. -/
theorem C7_concat_fields_witness :
    ∃ t p, goAtoi (formValue c7Form "concat-total") = some t ∧
      goAtoi (formValue c7Form "concat-part") = some p ∧
      c7Message.Concatenated = true ∧ c7Message.ConcatTotal = t ∧
      c7Message.ConcatPart = p :=
  C7_concat_fields.1 c7Form c7Message (by decide) (by decide)

/-- C9 counterexample: the claim as stated is false at a request with a
non-empty query and no Content-Type header: the handler responds 400 (not
500) with the body `"Content-Type not set\n"` (not empty). -/
theorem C9_counterexample :
    NewDeliveryHandler false c9Request = ⟨400, "Content-Type not set\n", none⟩ ∧
      (NewDeliveryHandler false c9Request).status ≠ 500 ∧
      (NewDeliveryHandler false c9Request).body ≠ "" := by
  exact ⟨by decide, by decide, by decide⟩

/-- Case analysis of the delivery decode step: it either succeeds, delivering
a fully converted receipt with HTTP 200, or fails with 400 (missing or
unsupported content type) or 500 (form, JSON or timestamp failure) and sends
nothing — never a partial receipt. -/
theorem deliveryDecodeStep_cases (req : DeliveryRequest) :
    (∃ m, deliveryDecodeStep req = ⟨200, "", some m⟩) ∨
      ((deliveryDecodeStep req).sent = none ∧
        ((deliveryDecodeStep req).status = 400 ∨
          (deliveryDecodeStep req).status = 500)) := by
  unfold deliveryDecodeStep
  cases req.contentType with
  | none => exact Or.inr ⟨rfl, Or.inl rfl⟩
  | some ct =>
    dsimp only
    by_cases hj : ct = "application/json"
    · rw [if_pos hj]
      cases req.jsonBody with
      | error e => exact Or.inr ⟨rfl, Or.inr rfl⟩
      | ok raw =>
        dsimp only
        cases hcv : convertTimestamps raw with
        | error p =>
          obtain ⟨pmsg, pcode⟩ := p
          refine Or.inr ⟨rfl, Or.inr ?_⟩
          exact (convertTimestamps_error_code raw _ hcv).1
        | ok dlr => exact Or.inl ⟨dlr, rfl⟩
    · rw [if_neg hj]
      by_cases hf : ct = "application/x-www-form-urlencoded"
      · rw [if_pos hf]
        cases req.parseFormResult with
        | error e => exact Or.inr ⟨rfl, Or.inr rfl⟩
        | ok f =>
          dsimp only
          cases hcv : convertTimestamps (parseForm f) with
          | error p =>
            obtain ⟨pmsg, pcode⟩ := p
            refine Or.inr ⟨rfl, Or.inr ?_⟩
            exact (convertTimestamps_error_code (parseForm f) _ hcv).1
          | ok dlr => exact Or.inl ⟨dlr, rfl⟩
      · rw [if_neg hf]
        exact Or.inr ⟨rfl, Or.inl rfl⟩

/-- Full case mapping of the delivery decode step: a missing Content-Type
header answers 400 with the reason `"Content-Type not set"`; an unsupported
content type answers 400 naming the received type; a JSON body-read or
unmarshal failure answers 500 with an empty message; a form parse failure
answers 500 with the reason `"Failed to parse form data"`; a timestamp
conversion failure answers 500 with the non-empty reason produced by
`convertTimestamps`; and whenever anything is sent on the out channel, the
outcome is the full-success one — HTTP 200 with an empty body — so no
partial receipt is ever delivered. -/
theorem deliveryDecodeStep_failure_map (req : DeliveryRequest) :
    (req.contentType = none →
      deliveryDecodeStep req = httpError "Content-Type not set" 400) ∧
    (∀ ct, req.contentType = some ct → ct ≠ "application/json" →
      ct ≠ "application/x-www-form-urlencoded" →
      deliveryDecodeStep req
        = httpError ("Content-Type " ++ ct ++ " not supported.") 400) ∧
    (∀ e, req.contentType = some "application/json" →
      req.jsonBody = .error e → deliveryDecodeStep req = httpError "" 500) ∧
    (∀ raw msg code, req.contentType = some "application/json" →
      req.jsonBody = .ok raw → convertTimestamps raw = .error (msg, code) →
      deliveryDecodeStep req = httpError msg 500 ∧ msg ≠ "") ∧
    (∀ e, req.contentType = some "application/x-www-form-urlencoded" →
      req.parseFormResult = .error e →
      deliveryDecodeStep req = httpError "Failed to parse form data" 500) ∧
    (∀ f msg code, req.contentType = some "application/x-www-form-urlencoded" →
      req.parseFormResult = .ok f →
      convertTimestamps (parseForm f) = .error (msg, code) →
      deliveryDecodeStep req = httpError msg 500 ∧ msg ≠ "") ∧
    (∀ m, (deliveryDecodeStep req).sent = some m →
      deliveryDecodeStep req = ⟨200, "", some m⟩) := by
  refine ⟨?_, ?_, ?_, ?_, ?_, ?_, ?_⟩
  · intro hct
    unfold deliveryDecodeStep
    rw [hct]
  · intro ct hct h1 h2
    unfold deliveryDecodeStep
    rw [hct]
    dsimp only
    rw [if_neg h1, if_neg h2]
  · intro e hct hj
    unfold deliveryDecodeStep
    rw [hct]
    dsimp only
    rw [if_pos rfl, hj]
  · intro raw msg code hct hj hcv
    have hc : code = 500 := (convertTimestamps_error_code raw (msg, code) hcv).1
    subst hc
    refine ⟨?_, (convertTimestamps_error_code raw (msg, 500) hcv).2⟩
    unfold deliveryDecodeStep
    rw [hct]
    dsimp only
    rw [if_pos rfl, hj]
    dsimp only
    rw [hcv]
  · intro e hct hpf
    unfold deliveryDecodeStep
    rw [hct]
    dsimp only
    rw [if_neg (by decide), if_pos rfl, hpf]
  · intro f msg code hct hpf hcv
    have hc : code = 500 := (convertTimestamps_error_code (parseForm f) (msg, code) hcv).1
    subst hc
    refine ⟨?_, (convertTimestamps_error_code (parseForm f) (msg, 500) hcv).2⟩
    unfold deliveryDecodeStep
    rw [hct]
    dsimp only
    rw [if_neg (by decide), if_pos rfl, hpf]
    dsimp only
    rw [hcv]
  · intro m hm
    rcases deliveryDecodeStep_cases req with ⟨dlr, hdlr⟩ | ⟨hnone, _⟩
    · rw [hdlr] at hm ⊢
      have h2 : some dlr = some m := hm
      injection h2 with h2
      rw [h2]
    · rw [hnone] at hm
      cases hm

/-- C9, amended: for every non-health-check delivery request passing the IP
gate, each decode-failure cause maps to its response — missing Content-Type:
400 with reason `"Content-Type not set"`; unsupported content type: 400
naming the received type; JSON read/unmarshal failure: 500 with an empty
message; form parse failure: 500 with reason `"Failed to parse form data"`;
timestamp parse failure: 500 with a non-empty reason — so a failure body is
empty only for JSON failures; and nothing is sent on the out channel unless
the whole decode succeeded with HTTP 200, so no partially populated
DeliveryReceipt is ever delivered. -/
theorem C9_decode_failure_responses :
    ∀ (v : Bool) (req : DeliveryRequest),
      ipGateRejects v req.remoteHost = false →
      ¬(req.rawQuery = "" ∧ req.contentLength ≤ 0) →
      (req.contentType = none →
        NewDeliveryHandler v req = httpError "Content-Type not set" 400) ∧
      (∀ ct, req.contentType = some ct → ct ≠ "application/json" →
        ct ≠ "application/x-www-form-urlencoded" →
        NewDeliveryHandler v req
          = httpError ("Content-Type " ++ ct ++ " not supported.") 400) ∧
      (∀ e, req.contentType = some "application/json" →
        req.jsonBody = .error e → NewDeliveryHandler v req = httpError "" 500) ∧
      (∀ raw msg code, req.contentType = some "application/json" →
        req.jsonBody = .ok raw → convertTimestamps raw = .error (msg, code) →
        NewDeliveryHandler v req = httpError msg 500 ∧ msg ≠ "") ∧
      (∀ e, req.contentType = some "application/x-www-form-urlencoded" →
        req.parseFormResult = .error e →
        NewDeliveryHandler v req = httpError "Failed to parse form data" 500) ∧
      (∀ f msg code, req.contentType = some "application/x-www-form-urlencoded" →
        req.parseFormResult = .ok f →
        convertTimestamps (parseForm f) = .error (msg, code) →
        NewDeliveryHandler v req = httpError msg 500 ∧ msg ≠ "") ∧
      (∀ m, (NewDeliveryHandler v req).sent = some m →
        NewDeliveryHandler v req = ⟨200, "", some m⟩) := by
  intro v req hg hq
  have hEq : NewDeliveryHandler v req = deliveryDecodeStep req := by
    unfold NewDeliveryHandler
    rw [hg, if_neg Bool.false_ne_true, if_neg hq]
  rw [hEq]
  exact deliveryDecodeStep_failure_map req

/-- C9 witness: a request with the unsupported content type `text/plain`
gets the 400 response naming that type. -/
theorem C9_decode_failure_responses_witness :
    NewDeliveryHandler false c9UnsupportedRequest
      = httpError ("Content-Type " ++ "text/plain" ++ " not supported.") 400 :=
  (C9_decode_failure_responses false c9UnsupportedRequest rfl
      (by decide)).2.1 "text/plain" rfl (by decide) (by decide)

end Gonexmo
